import Mathlib

/-!
Verification of the balance-ledger / checkout-settlement core of the
fastapi-shop backend, shallowly embedded from the Python sources.

Modelling conventions:
* All monetary values (balances, amounts, totals) are fixed-point decimals
  with two fraction digits in the source; they are represented here as `Int`
  numbers of cents.  `Decimal.quantize(Decimal("0.01"))` applied to a value
  that already has two fraction digits is the identity, and every value that
  reaches the quantize calls in the modelled code paths has been quantized by
  a pydantic validator (`TransactionCreate.amount`, `OrderBase.total_amount`,
  the stored balance), so the quantize steps disappear in the cents model.
* The MongoDB collections are modelled as association lists keyed by the
  document id (string).  `find_one` is `lookupD`, a conditional
  `find_one_and_update` checks the extra filter condition on the looked-up
  document and rewrites it with `mapAt`, `insert_one` appends.
* A Python function that raises before performing its storage write returns
  `Except.error` carrying the exception; the caller keeps its old database
  state, which is exactly what MongoDB does when the filter of a conditional
  update matches no document.  Functions that complete return `.ok` with the
  updated database.
* Timestamps (`created_at`, `updated_at`, ...) are irrelevant to every claim
  and are not modelled.
-/

/-- Python exception values that the modelled code can raise:
`fastapi.HTTPException(status_code, detail)`, `TypeError`, `ValueError`. -/
inductive PyErr where
  | http (status : Nat) (detail : String)
  | typeError (msg : String)
  | valueError (msg : String)
deriving DecidableEq, Repr

/-- Python `str(e)` for the exceptions above: for `HTTPException` starlette's
constructor passes `detail` to `Exception.__init__`, so `str(e)` is the
detail; for `TypeError`/`ValueError` it is the message. -/
def errStr : PyErr → String
  | .http _ detail => detail
  | .typeError m => m
  | .valueError m => m

/-- Enumeration `TransactionType` from `app/models/transaction.py`. -/
inductive TransactionType where
  | deposit | withdraw | payment | refund
deriving DecidableEq, Repr

/-- Enumeration `TransactionStatus` from `app/models/transaction.py`. -/
inductive TransactionStatus where
  | pending | completed | failed | cancelled
deriving DecidableEq, Repr

/-- Enumeration `OrderStatus` from `app/models/order.py`. -/
inductive OrderStatus where
  | pending | confirmed | processing | shipped | delivered | cancelled | refunded
  | failed
deriving DecidableEq, Repr

/-- Enumeration `PaymentStatus` from `app/models/order.py`. -/
inductive PaymentStatus where
  | pending | paid | failed | refunded
deriving DecidableEq, Repr

/-- Enumeration `ProductStatus` from `app/models/product.py`. -/
inductive ProductStatus where
  | draft | active | inactive | deleted
deriving DecidableEq, Repr

/-- The claim-relevant fields of a stored user document: the mutable
`balance` (cents). -/
structure UserDoc where
  balance : Int
deriving DecidableEq, Repr

/-- The claim-relevant fields of a stored product document.  `deleted` models
`deleted_at is not None` (soft deletion). -/
structure ProductDoc where
  stock : Int
  status : ProductStatus
  deleted : Bool
deriving DecidableEq, Repr

/-- A stored transaction document, as built by
`TransactionService.create_transaction`. -/
structure TransactionDoc where
  id : String
  user_id : String
  type : TransactionType
  amount : Int
  balance : Int
  status : TransactionStatus
  description : Option String
  reference_id : Option String
deriving DecidableEq, Repr

/-- A line item of an order (frozen snapshot of product id, quantity,
unit price). -/
structure OrderItem where
  product_id : String
  quantity : Int
  price : Int
deriving DecidableEq, Repr

/-- The claim-relevant fields of a stored order document. -/
structure OrderDoc where
  user_id : String
  items : List OrderItem
  total_amount : Int
  status : OrderStatus
  payment_status : PaymentStatus
  transaction_id : Option String
deriving DecidableEq, Repr

/-- Model `TransactionCreate` from `app/models/transaction.py` (the pydantic
constraint `amount > 0`, quantized to two decimals, is carried as a
hypothesis where a theorem needs it). -/
structure TransactionCreate where
  type : TransactionType
  amount : Int
  description : Option String
  reference_id : Option String
deriving DecidableEq, Repr

/-- The document store: the four collections the core touches. -/
structure DB where
  users : List (String × UserDoc)
  transactions : List TransactionDoc
  orders : List (String × OrderDoc)
  products : List (String × ProductDoc)
deriving DecidableEq, Repr

/-- Mongo `find_one` by id over a collection modelled as an association list. -/
def lookupD : List (String × α) → String → Option α
  | [], _ => none
  | (k, v) :: rest, key => if key = k then some v else lookupD rest key

/-- Rewrite the document(s) stored under `key` with `f`; models the write of
a `find_one_and_update` / `update_one` whose filter matched. -/
def mapAt (l : List (String × α)) (key : String) (f : α → α) : List (String × α) :=
  l.map fun p => if p.1 = key then (p.1, f p.2) else p

/-- The balance resulting from an `update_balance` call: credit for `"add"`,
debit for `"subtract"`. -/
def newBalance (cur amt : Int) (op : String) : Int :=
  if op = "add" then cur + amt else cur - amt

/-- The `$set {"balance": nb}` write of a conditional user update. -/
def writeBalance (users : List (String × UserDoc)) (uid : String) (nb : Int) :
    List (String × UserDoc) :=
  mapAt users uid (fun v => { v with balance := nb })

/-- Embeds `UserService.update_balance` (`app/services/user.py`, lines 126-165):
validate the operation name, require a positive (quantized) amount, compute
the new balance, reject a negative result, then perform a single
compare-and-swap write conditioned on the stored balance still equaling the
caller-supplied `current_balance`; a failed condition raises 409 and writes
nothing, and is not retried. -/
def update_balance (db : DB) (user_id : String) (current_balance amount : Int)
    (operation : String) : Except PyErr (UserDoc × DB) :=
  if ¬(operation = "add" ∨ operation = "subtract") then
    .error (.valueError "Invalid operation")
  else if amount ≤ 0 then
    .error (.http 400 "Amount must be positive")
  else if newBalance current_balance amount operation < 0 then
    .error (.http 400 "Balance cannot be negative")
  else
    match lookupD db.users user_id with
    | some u =>
      if u.balance = current_balance then
        .ok ({ u with balance := newBalance current_balance amount operation },
             { db with
                users := writeBalance db.users user_id
                    (newBalance current_balance amount operation) })
      else
        .error (.http 409 "Balance was modified by another operation")
    | none =>
      .error (.http 409 "Balance was modified by another operation")

/-- Id assigned by `insert_one` for a freshly inserted transaction. -/
def nextTransactionId (db : DB) : String :=
  "t" ++ toString db.transactions.length

/-- The `try` block of `TransactionService.create_transaction`
(`app/services/transaction.py`, lines 56-85): a conditional balance write
(optimistic locking on the balance read at the top of the method) followed by
the ledger insert.  Any exception inside the block, including the 409 raised
when the optimistic-lock filter matches nothing, is re-raised as a 500
`"Transaction failed: ..."`. -/
def ctWrite (db : DB) (user_id : String) (td : TransactionCreate)
    (cur nb : Int) : Except PyErr (TransactionDoc × DB) :=
  match lookupD db.users user_id with
  | some u2 =>
    if u2.balance = cur then
      let t : TransactionDoc :=
        { id := nextTransactionId db, user_id := user_id, type := td.type,
          amount := td.amount, balance := nb, status := .completed,
          description := td.description, reference_id := td.reference_id }
      .ok (t, { db with users := writeBalance db.users user_id nb,
                        transactions := db.transactions ++ [t] })
    else
      .error (.http 500
        "Transaction failed: Balance was modified by another operation")
  | none =>
    .error (.http 500
      "Transaction failed: Balance was modified by another operation")

/-- Embeds `TransactionService.create_transaction` (`app/services/transaction.py`,
lines 19-85): read the user's stored balance, compute the new balance from
the transaction type (rejecting a withdraw/payment that exceeds the stored
balance), then conditionally write the balance and append the ledger
record. -/
def create_transaction (db : DB) (user_id : String)
    (transaction_data : TransactionCreate) : Except PyErr (TransactionDoc × DB) :=
  match lookupD db.users user_id with
  | none => .error (.http 404 "User not found")
  | some user =>
    match transaction_data.type with
    | .deposit | .refund =>
      ctWrite db user_id transaction_data user.balance
        (user.balance + transaction_data.amount)
    | .withdraw | .payment =>
      if user.balance < transaction_data.amount then
        .error (.http 400 "Insufficient balance")
      else
        ctWrite db user_id transaction_data user.balance
          (user.balance - transaction_data.amount)

/-- Embeds `ProductService.get_product_by_id` (`app/services/product.py`,
lines 39-52): `find_one` filtered on id, `status == "active"` and
`deleted_at == None`. -/
def get_product_by_id (db : DB) (product_id : String) : Except PyErr ProductDoc :=
  match lookupD db.products product_id with
  | some p =>
    if p.status = .active ∧ p.deleted = false then .ok p
    else .error (.http 404 "Product not found")
  | none => .error (.http 404 "Product not found")

/-- The `find_one_and_update` with `$inc {"stock": delta}` at the end of
`ProductService.update_stock`: matched by id only. -/
def stockInc (db : DB) (product_id : String) (delta : Int) :
    Except PyErr (ProductDoc × DB) :=
  match lookupD db.products product_id with
  | none => .error (.http 404 "Product not found")
  | some p =>
    .ok ({ p with stock := p.stock + delta },
         { db with
            products := mapAt db.products product_id
                (fun q => { q with stock := q.stock + delta }) })

/-- Embeds `ProductService.update_stock` (`app/services/product.py`, lines 161-190):
validate the operation name, reject a negative quantity, for `"subtract"`
check sufficiency against the product fetched by `get_product_by_id`, then
apply the `$inc`. -/
def update_stock (db : DB) (product_id : String) (quantity : Int)
    (operation : String) : Except PyErr (ProductDoc × DB) :=
  if ¬(operation = "add" ∨ operation = "subtract") then
    .error (.valueError "Invalid operation")
  else if quantity < 0 then
    .error (.http 400 "Quantity must be positive")
  else if operation = "subtract" then
    match get_product_by_id db product_id with
    | .error e => .error e
    | .ok p =>
      if p.stock < quantity then .error (.http 400 "Insufficient stock")
      else stockInc db product_id (-quantity)
  else stockInc db product_id quantity

/-- Embeds `OrderService.get_order_by_id` (`app/services/order.py`, lines 81-94)
with a `user_id` in the query. -/
def get_order_by_id (db : DB) (order_id user_id : String) :
    Except PyErr OrderDoc :=
  match lookupD db.orders order_id with
  | some o => if o.user_id = user_id then .ok o
              else .error (.http 404 "Order not found")
  | none => .error (.http 404 "Order not found")

/-- The `$set` of `OrderService.update_order_payment_status`: the
`transaction_id` field is written only when the argument is truthy. -/
def setPaymentStatus (o : OrderDoc) (ps : PaymentStatus)
    (tid : Option String) : OrderDoc :=
  { o with payment_status := ps,
           transaction_id := match tid with
                             | some t => some t
                             | none => o.transaction_id }

/-- Embeds `OrderService.update_order_payment_status` (`app/services/order.py`,
lines 233-252): `update_one` by order id; zero documents modified raises
400. -/
def update_order_payment_status (db : DB) (order_id : String)
    (payment_status : PaymentStatus) (transaction_id : Option String) :
    Except PyErr DB :=
  match lookupD db.orders order_id with
  | some _ =>
    .ok { db with
            orders := mapAt db.orders order_id
                (fun o => setPaymentStatus o payment_status transaction_id) }
  | none => .error (.http 400 "Failed to update payment status")

/-- Embeds `OrderService.update_order_status` (`app/services/order.py`,
lines 254-267). -/
def update_order_status (db : DB) (order_id : String) (status : OrderStatus) :
    Except PyErr DB :=
  match lookupD db.orders order_id with
  | some _ =>
    .ok { db with
            orders := mapAt db.orders order_id
                (fun o => { o with status := status }) }
  | none => .error (.http 400 "Failed to update order status")

/-- Sequential stock decrement over the line items of an order. -/
def decrementItems : DB → List OrderItem → Except PyErr DB
  | db, [] => .ok db
  | db, item :: rest =>
    match update_stock db item.product_id item.quantity "subtract" with
    | .error e => .error e
    | .ok (_, db2) => decrementItems db2 rest

/-- Modelled from the spec: `ProductService.update_stock_after_order_payment`
is called by the checkout endpoint but its definition is absent from the
service sources under `src/`; spec 4.4 step 4 says checkout decrements stock
for every line item via the Stock Adjuster, so it is modelled as the
item-wise `update_stock "subtract"` sequence, failing on the first failing
decrement. -/
def update_stock_after_order_payment (db : DB) (order : OrderDoc) :
    Except PyErr DB :=
  decrementItems db order.items

/-- The `TypeError` message produced by calling
`TransactionService.create_transaction` with a `current_balance` keyword. -/
def createTransactionKwErrMsg : String :=
  "create_transaction got an unexpected keyword argument current_balance"

/-- The call
`transaction_service.create_transaction(transaction_data=..., user_id=...,
current_balance=CURRENT_BALANCE)` made by the deposit endpoint
(`app/api/endpoints/transactions.py`, lines 49-53), the withdraw endpoint
(lines 85-89) and the checkout endpoint (`app/api/endpoints/orders.py`,
lines 172-176).  The signature of `TransactionService.create_transaction`
(`app/services/transaction.py`, line 19) is
`(self, user_id: str, transaction_data: TransactionCreate)`: Python keyword
binding rejects the extra `current_balance` keyword and raises `TypeError`
at the call site, before the method body or any database access runs. -/
def create_transaction_kwcall (_db : DB) (_user_id : String)
    (_transaction_data : TransactionCreate) (_current_balance : Int) :
    Except PyErr (TransactionDoc × DB) :=
  .error (.typeError createTransactionKwErrMsg)

/-- Embeds `product_service.get_products_by_ids([item.product_id for item in
order.items])`: `find` with `$in` returns each stored product whose id
occurs among the item product ids (each stored document once). -/
def productsByIds (db : DB) (ids : List String) : List (String × ProductDoc) :=
  db.products.filter (fun p => ids.contains p.1)

/-- The per-item validation loop of the checkout endpoint
(`app/api/endpoints/orders.py`, lines 149-154): `product_map.get` returning
`None` makes `product.status` raise an `AttributeError`, modelled as a
Python-level error. -/
def checkItems (db : DB) : List OrderItem → Option PyErr
  | [] => none
  | item :: rest =>
    match lookupD db.products item.product_id with
    | none => some (.typeError "NoneType object has no attribute status")
    | some p =>
      if p.status ≠ .active then some (.http 400 "Product is not active")
      else if p.stock < item.quantity then some (.http 400 "Insufficient stock")
      else checkItems db rest

/-- The `TransactionCreate` the checkout endpoint builds
(`app/api/endpoints/orders.py`, lines 156-160): type `payment`, amount
`order.total_amount`, the order id interpolated into the description, and no
`reference_id`. -/
def checkout_transaction_data (order_id : String) (total_amount : Int) :
    TransactionCreate :=
  { type := .payment, amount := total_amount,
    description := some ("Payment for order #" ++ order_id),
    reference_id := none }

/-- The first `except` handler of the checkout endpoint
(`app/api/endpoints/orders.py`, lines 182-185): mark the payment failed,
then re-raise as 500. -/
def checkoutFail1 (db : DB) (order_id : String) (e : PyErr) :
    Except PyErr String × DB :=
  match update_order_payment_status db order_id .failed none with
  | .ok db2 => (.error (.http 500 ("Payment failed: " ++ errStr e)), db2)
  | .error e2 => (.error e2, db)

/-- The second `except` handler of the checkout endpoint
(`app/api/endpoints/orders.py`, lines 196-201): mark the order failed, then
re-raise as 500. -/
def checkoutFail2 (db : DB) (order_id : String) (e : PyErr) :
    Except PyErr String × DB :=
  match update_order_status db order_id .failed with
  | .ok db2 => (.error (.http 500 ("Order processing failed: " ++ errStr e)), db2)
  | .error e2 => (.error e2, db)

/-- Embeds the route `checkout_order` (`app/api/endpoints/orders.py`, lines 116-201).
`current_user_balance` is the balance read by the authentication dependency
before the endpoint body runs (`CURRENT_BALANCE = current_user.balance`); it
may be stale with respect to the stored balance.  The pair returned is the
response and the final state of the store. -/
def checkout_order (db : DB) (current_user_id : String)
    (current_user_balance : Int) (order_id : String) :
    Except PyErr String × DB :=
  match get_order_by_id db order_id current_user_id with
  | .error e => (.error e, db)
  | .ok order =>
  if order.status ≠ .pending then
    (.error (.http 400 "Order is not pending"), db)
  else if ¬(order.payment_status = .pending ∨ order.payment_status = .failed) then
    (.error (.http 400 "Order is not pending or failed"), db)
  else if current_user_balance < order.total_amount then
    (.error (.http 400 "Insufficient balance"), db)
  else if (productsByIds db (order.items.map OrderItem.product_id)).length ≠
      order.items.length then
    (.error (.http 400 "Some products not found"), db)
  else match checkItems db order.items with
  | some e => (.error e, db)
  | none =>
  if order.total_amount ≤ 0 then
    (.error (.valueError "TransactionCreate amount must be greater than 0"), db)
  else
  match update_balance db current_user_id current_user_balance
      order.total_amount "subtract" with
  | .error e => checkoutFail1 db order_id e
  | .ok (_, db1) =>
  match create_transaction_kwcall db1 current_user_id
      (checkout_transaction_data order_id order.total_amount)
      current_user_balance with
  | .error e => checkoutFail1 db1 order_id e
  | .ok (transaction, db2) =>
  match update_order_payment_status db2 order_id .paid (some transaction.id) with
  | .error e => checkoutFail1 db2 order_id e
  | .ok db3 =>
  match update_stock_after_order_payment db3 order with
  | .error e => checkoutFail2 db3 order_id e
  | .ok db4 =>
  match update_order_status db4 order_id .confirmed with
  | .error e => checkoutFail2 db4 order_id e
  | .ok db5 => (.ok "Order processed successfully", db5)

/-- Embeds the route `deposit_money` (`app/api/endpoints/transactions.py`, lines 24-57).
The request model `TransactionDeposit` is absent from the sources under
`src/`; only the `amount` and optional `description` it carries reach this
body.  The leading guard models the pydantic validation of the
`TransactionCreate` the endpoint builds before its `try` block
(`amount` must be greater than 0). -/
def deposit_money (db : DB) (current_user_id : String)
    (current_user_balance amount : Int) (description : Option String) :
    Except PyErr TransactionDoc × DB :=
  if amount ≤ 0 then
    (.error (.valueError "TransactionCreate amount must be greater than 0"), db)
  else
    match update_balance db current_user_id current_user_balance amount "add" with
    | .error e => (.error (.http 500 ("Transaction failed: " ++ errStr e)), db)
    | .ok (_, db1) =>
      match create_transaction_kwcall db1 current_user_id
          ⟨.deposit, amount, description, none⟩ current_user_balance with
      | .error e => (.error (.http 500 ("Transaction failed: " ++ errStr e)), db1)
      | .ok (t, db2) => (.ok t, db2)

/-- Embeds the route `withdraw_money` (`app/api/endpoints/transactions.py`, lines 60-93),
mirroring `deposit_money` with operation `"subtract"` and type
`withdraw`. -/
def withdraw_money (db : DB) (current_user_id : String)
    (current_user_balance amount : Int) (description : Option String) :
    Except PyErr TransactionDoc × DB :=
  if amount ≤ 0 then
    (.error (.valueError "TransactionCreate amount must be greater than 0"), db)
  else
    match update_balance db current_user_id current_user_balance amount
        "subtract" with
    | .error e => (.error (.http 500 ("Transaction failed: " ++ errStr e)), db)
    | .ok (_, db1) =>
      match create_transaction_kwcall db1 current_user_id
          ⟨.withdraw, amount, description, none⟩ current_user_balance with
      | .error e => (.error (.http 500 ("Transaction failed: " ++ errStr e)), db1)
      | .ok (t, db2) => (.ok t, db2)

/-- The query filter of `TransactionService.get_user_transactions`
(`app/services/transaction.py`, lines 96-99): owning user, plus the type
when one is given (a falsy empty type string from the route means no type
filter and is modelled as `none`). -/
def txMatches (user_id : String) (transaction_type : Option TransactionType)
    (t : TransactionDoc) : Bool :=
  t.user_id == user_id &&
    (match transaction_type with
     | some ty => decide (t.type = ty)
     | none => true)

/-- Embeds `TransactionService.get_user_transactions` (`app/services/transaction.py`,
lines 87-110): filter, sort by `created_at` descending (insertion order is
chronological, so descending is the reverse of the stored list), skip and
limit.  It returns only the list of records - no total count. -/
def get_user_transactions (db : DB) (user_id : String) (skip limit : Nat)
    (transaction_type : Option TransactionType) : List TransactionDoc :=
  (((db.transactions.filter (txMatches user_id transaction_type)).reverse).drop
    skip).take limit

/-- The `TypeError` message produced by calling
`TransactionService.get_user_transactions` with a `sort_by` keyword. -/
def getUserTransactionsKwErrMsg : String :=
  "get_user_transactions got an unexpected keyword argument sort_by"

/-- The call the route `get_transactions`
(`app/api/endpoints/transactions.py`, lines 114-126) makes:
`transaction_service.get_user_transactions(user_id=..., skip=..., limit=...,
transaction_type=..., sort_by=..., sort_order=..., min_amount=...,
max_amount=..., status=...)`, unpacked as `transactions, total = ...`.
The signature of `TransactionService.get_user_transactions`
(`app/services/transaction.py`, lines 87-93) accepts only `user_id`, `skip`,
`limit` and `transaction_type` and returns a bare list: Python keyword
binding rejects the extra keywords and raises `TypeError` at the call site,
before the method body or any database access runs. -/
def get_user_transactions_kwcall (_db : DB) (_user_id : String)
    (_skip _limit : Nat) (_transaction_type : Option TransactionType) :
    Except PyErr (List TransactionDoc × Nat) :=
  .error (.typeError getUserTransactionsKwErrMsg)

/-- Character-list prefix test (used to model Python `in` on strings). -/
def chPre : List Char → List Char → Bool
  | [], _ => true
  | _ :: _, [] => false
  | a :: as, b :: bs => a == b && chPre as bs

/-- Character-list infix test (Python `pat in text`). -/
def chInf (pat : List Char) : List Char → Bool
  | [] => pat.isEmpty
  | b :: bs => chPre pat (b :: bs) || chInf pat bs

/-- Python `s.lower()`. -/
def lowerStr (s : String) : String :=
  ⟨s.data.map Char.toLower⟩

/-- The route `get_transactions` (`app/api/endpoints/transactions.py`,
lines 96-148): call the service inside `try`, and on an exception answer 400
when the message mentions `"not found"`, else 500. -/
def get_transactions (db : DB) (user_id : String) (page size : Nat)
    (transaction_type : Option TransactionType) :
    Except PyErr (List TransactionDoc × Nat) :=
  match get_user_transactions_kwcall db user_id ((page - 1) * size) size
      transaction_type with
  | .ok (transactions, total) => .ok (transactions, total)
  | .error e =>
    if chInf "not found".data (lowerStr (errStr e)).data then
      .error (.http 400 "Invalid sort field")
    else
      .error (.http 500 ("Error fetching transactions: " ++ errStr e))

-- Scenario stores used by concrete theorems and witnesses.

/-- Scenario store of spec section 8: user balance 100.00, a pending order of
total 40.00 for two units of an active product with stock 5. -/
def db1 : DB :=
  { users := [("u", ⟨10000⟩)],
    transactions := [],
    orders := [("o", { user_id := "u", items := [⟨"p", 2, 2000⟩],
                       total_amount := 4000, status := .pending,
                       payment_status := .pending, transaction_id := none })],
    products := [("p", { stock := 5, status := .active, deleted := false })] }

/-- Store in which the balance read by the authentication dependency (100.00)
is stale: the stored balance is 50.00, so the checkout debit loses the
compare-and-swap. -/
def db6 : DB :=
  { users := [("u", ⟨5000⟩)],
    transactions := [],
    orders := [("o", { user_id := "u", items := [⟨"p", 1, 4000⟩],
                       total_amount := 4000, status := .pending,
                       payment_status := .pending, transaction_id := none })],
    products := [("p", { stock := 3, status := .active, deleted := false })] }

/-- Scenario store of spec section 8: user balance 10.00, a pending order of
total 40.00. -/
def db7 : DB :=
  { users := [("u", ⟨1000⟩)],
    transactions := [],
    orders := [("o", { user_id := "u", items := [⟨"p", 2, 2000⟩],
                       total_amount := 4000, status := .pending,
                       payment_status := .pending, transaction_id := none })],
    products := [("p", { stock := 5, status := .active, deleted := false })] }

/-- A store with one user holding balance 7.00. -/
def dbW : DB :=
  { users := [("u", ⟨700⟩)], transactions := [], orders := [], products := [] }

/-- Store `dbW` after a successful credit of 1.00. -/
def dbWadd : DB :=
  { users := [("u", ⟨800⟩)], transactions := [], orders := [], products := [] }

/-- Store `dbW` after a successful debit of 1.00. -/
def dbWsub : DB :=
  { users := [("u", ⟨600⟩)], transactions := [], orders := [], products := [] }

/-- A store with one active product of stock 3. -/
def dbS : DB :=
  { users := [], transactions := [], orders := [],
    products := [("q", { stock := 3, status := .active, deleted := false })] }

/-- The order document stored in `db1` and `db7`. -/
def order1 : OrderDoc :=
  { user_id := "u", items := [⟨"p", 2, 2000⟩], total_amount := 4000,
    status := .pending, payment_status := .pending, transaction_id := none }

/-- The order document stored in `db6`. -/
def order6 : OrderDoc :=
  { user_id := "u", items := [⟨"p", 1, 4000⟩], total_amount := 4000,
    status := .pending, payment_status := .pending, transaction_id := none }

/-- Store `db1` after the checkout debit of 40.00 committed. -/
def db1sub : DB :=
  { users := [("u", ⟨6000⟩)],
    transactions := [],
    orders := [("o", order1)],
    products := [("p", { stock := 5, status := .active, deleted := false })] }

/-- The ledger record of a 1.00 deposit applied to `dbW`. -/
def tDep : TransactionDoc :=
  { id := "t0", user_id := "u", type := .deposit, amount := 100,
    balance := 800, status := .completed, description := none,
    reference_id := none }

/-- Store `dbW` after `create_transaction` applies a 1.00 deposit. -/
def dbDep : DB :=
  { users := [("u", ⟨800⟩)], transactions := [tDep], orders := [],
    products := [] }

/-- Store `dbS` after a subtract of 2 units. -/
def dbS2 : DB :=
  { users := [], transactions := [], orders := [],
    products := [("q", { stock := 1, status := .active, deleted := false })] }

-- Theorems.

theorem lookupD_mapAt (l : List (String × α)) (key k : String) (f : α → α) :
    lookupD (mapAt l key f) k =
      if k = key then (lookupD l k).map f else lookupD l k := by
  induction l with
  | nil => simp [mapAt, lookupD]
  | cons p rest ih =>
    obtain ⟨a, b⟩ := p
    simp only [mapAt, List.map_cons] at *
    by_cases hak : a = key
    · subst hak
      rw [if_pos rfl]
      by_cases hka : k = a
      · subst hka
        simp [lookupD, ih]
      · simp [lookupD, hka, ih]
    · rw [if_neg hak]
      by_cases hka : k = a
      · subst hka
        simp [lookupD, hak]
      · simp [lookupD, hka, ih]

/-- Characterization of a successful `update_balance`: the CAS condition held
(the stored balance equaled the supplied `current_balance`), and the only
write is the user's new balance. -/
theorem update_balance_ok (db : DB) (uid : String) (cur amt : Int)
    (op : String) (u : UserDoc) (db' : DB)
    (h : update_balance db uid cur amt op = .ok (u, db')) :
    (op = "add" ∨ op = "subtract") ∧ 0 < amt ∧
    lookupD db.users uid = some ⟨cur⟩ ∧
    u = ⟨newBalance cur amt op⟩ ∧
    0 ≤ u.balance ∧
    db' = { db with users := mapAt db.users uid (fun _ => u) } := by
  unfold update_balance at h
  split at h
  · exact Except.noConfusion h
  · split at h
    · exact Except.noConfusion h
    · split at h
      · exact Except.noConfusion h
      · rename_i h1 h2 h3
        rw [not_not] at h1
        split at h
        next u0 hl =>
          split at h
          next h4 =>
            rw [Except.ok.injEq, Prod.mk.injEq] at h
            obtain ⟨hu, hdb⟩ := h
            obtain ⟨b0⟩ := u0
            simp only at h4
            subst h4
            refine ⟨h1, by omega, hl, hu.symm, ?_, ?_⟩
            · rw [← hu]
              show 0 ≤ newBalance b0 amt op
              omega
            · rw [← hdb]
              unfold writeBalance
              have hf : (fun v => { v with balance := newBalance b0 amt op } :
                  UserDoc → UserDoc) = (fun _ => u) := by
                funext v; obtain ⟨_⟩ := v; rw [← hu]
              rw [hf]
          next h4 => exact Except.noConfusion h
        next hl => exact Except.noConfusion h

/-- Failed compare-and-swap: if the stored balance (if any) no longer equals
the supplied `current_balance`, and the input validation passes, the call
fails with 409 and performs no write. -/
theorem update_balance_cas_fail (db : DB) (uid : String) (cur amt : Int)
    (op : String) (hop : op = "add" ∨ op = "subtract") (hamt : 0 < amt)
    (hnb : 0 ≤ newBalance cur amt op)
    (hne : (lookupD db.users uid).map UserDoc.balance ≠ some cur) :
    update_balance db uid cur amt op =
      .error (.http 409 "Balance was modified by another operation") := by
  unfold update_balance
  rw [if_neg (not_not.mpr hop), if_neg (by omega : ¬amt ≤ 0),
    if_neg (by omega : ¬newBalance cur amt op < 0)]
  split
  next u0 hl =>
    rw [hl] at hne
    simp at hne
    rw [if_neg hne]
  next hl => rfl

/-- A successful `update_balance` changes only the caller's user document,
whose stored balance becomes the returned one. -/
theorem update_balance_ok_fields (db : DB) (uid : String) (cur amt : Int)
    (op : String) (u : UserDoc) (db' : DB)
    (h : update_balance db uid cur amt op = .ok (u, db')) :
    db'.transactions = db.transactions ∧ db'.orders = db.orders ∧
    db'.products = db.products ∧ lookupD db'.users uid = some u ∧
    0 < amt ∧ u = ⟨newBalance cur amt op⟩ := by
  obtain ⟨-, hamt, hlk, hu, -, hdb⟩ := update_balance_ok db uid cur amt op u db' h
  subst hdb
  refine ⟨rfl, rfl, rfl, ?_, hamt, hu⟩
  show lookupD (mapAt db.users uid (fun _ => u)) uid = some u
  rw [lookupD_mapAt, if_pos rfl, hlk]
  rfl

/-- Writing a non-negative balance preserves non-negativity of every stored
balance. -/
theorem writeBalance_nonneg (users : List (String × UserDoc)) (uid : String)
    (nb : Int) (hnb : 0 ≤ nb)
    (hall : ∀ k v, lookupD users k = some v → 0 ≤ v.balance) :
    ∀ k v, lookupD (writeBalance users uid nb) k = some v → 0 ≤ v.balance := by
  intro k v hv
  unfold writeBalance at hv
  rw [lookupD_mapAt] at hv
  by_cases hk : k = uid
  · rw [if_pos hk] at hv
    rcases hw : lookupD users k with _ | w <;> rw [hw] at hv
    · exact absurd hv (by simp)
    · simp only [Option.map_some'] at hv
      injection hv with hv
      rw [← hv]
      exact hnb
  · rw [if_neg hk] at hv
    exact hall k v hv

/-- Every stored balance of a one-user store with a non-negative balance is
non-negative. -/
theorem singleton_nonneg (uid : String) (b : Int) (hb : 0 ≤ b) :
    ∀ k v, lookupD [(uid, (⟨b⟩ : UserDoc))] k = some v → 0 ≤ v.balance := by
  intro k v hv
  unfold lookupD at hv
  by_cases hk : k = uid
  · rw [if_pos hk] at hv
    injection hv with hv
    rw [← hv]
    exact hb
  · rw [if_neg hk] at hv
    exact absurd hv (by unfold lookupD; simp)

/-- A successful `create_transaction` rewrote the user's balance with the
recorded one: either a credit, or a debit that passed the sufficiency
check. -/
theorem create_transaction_ok_users (db : DB) (uid : String)
    (td : TransactionCreate) (t : TransactionDoc) (db' : DB)
    (h : create_transaction db uid td = .ok (t, db')) :
    ∃ user nb, lookupD db.users uid = some user ∧
      (nb = user.balance + td.amount ∨
        (td.amount ≤ user.balance ∧ nb = user.balance - td.amount)) ∧
      db'.users = writeBalance db.users uid nb := by
  unfold create_transaction at h
  split at h
  · exact Except.noConfusion h
  · rename_i user hlk
    have hw : ∀ nb, ctWrite db uid td user.balance nb = .ok (t, db') →
        db'.users = writeBalance db.users uid nb := by
      intro nb hc
      unfold ctWrite at hc
      split at hc
      · rename_i u2 hlk2
        split at hc
        · rw [Except.ok.injEq, Prod.mk.injEq] at hc
          rw [← hc.2]
        · exact Except.noConfusion hc
      · exact Except.noConfusion hc
    split at h
    · exact ⟨user, user.balance + td.amount, hlk, Or.inl rfl, hw _ h⟩
    · exact ⟨user, user.balance + td.amount, hlk, Or.inl rfl, hw _ h⟩
    · split at h
      · exact Except.noConfusion h
      · rename_i hin
        exact ⟨user, user.balance - td.amount, hlk,
          Or.inr ⟨by omega, rfl⟩, hw _ h⟩
    · split at h
      · exact Except.noConfusion h
      · rename_i hin
        exact ⟨user, user.balance - td.amount, hlk,
          Or.inr ⟨by omega, rfl⟩, hw _ h⟩

/-- Unfolding a successful `get_product_by_id`. -/
theorem get_product_by_id_ok (db : DB) (pid : String) (p : ProductDoc)
    (h : get_product_by_id db pid = .ok p) :
    lookupD db.products pid = some p ∧ p.status = .active ∧
    p.deleted = false := by
  unfold get_product_by_id at h
  split at h
  · rename_i p0 hlk
    split at h
    · rename_i hcond
      injection h with h
      subst h
      exact ⟨hlk, hcond.1, hcond.2⟩
    · exact Except.noConfusion h
  · exact Except.noConfusion h

/-- A successful subtract `update_stock` leaves a non-negative stored stock,
and the returned product is the stored one. -/
theorem update_stock_subtract_ok (db : DB) (pid : String) (q : Int)
    (p' : ProductDoc) (db' : DB)
    (h : update_stock db pid q "subtract" = .ok (p', db')) :
    0 ≤ p'.stock ∧ lookupD db'.products pid = some p' := by
  unfold update_stock at h
  rw [if_neg (by decide :
    ¬¬("subtract" = "add" ∨ "subtract" = "subtract"))] at h
  split at h
  · exact Except.noConfusion h
  · rename_i hq
    rw [if_pos rfl] at h
    split at h
    · exact Except.noConfusion h
    · rename_i p hgp
      obtain ⟨hlk, -, -⟩ := get_product_by_id_ok db pid p hgp
      split at h
      · exact Except.noConfusion h
      · rename_i hst
        unfold stockInc at h
        rw [hlk] at h
        rw [Except.ok.injEq, Prod.mk.injEq] at h
        obtain ⟨hp, hdb⟩ := h
        constructor
        · rw [← hp]
          show 0 ≤ p.stock + -q
          omega
        · rw [← hdb, ← hp]
          show lookupD (mapAt db.products pid
            (fun q2 => { q2 with stock := q2.stock + -q })) pid = _
          rw [lookupD_mapAt, if_pos rfl, hlk]
          rfl

/-- When the order exists, the first checkout `except` handler answers 500 and
marks only the payment status failed. -/
theorem checkoutFail1_eq (db : DB) (oid : String) (e : PyErr)
    (order : OrderDoc) (h : lookupD db.orders oid = some order) :
    checkoutFail1 db oid e =
      (.error (.http 500 ("Payment failed: " ++ errStr e)),
       { db with
          orders := mapAt db.orders oid
              (fun o => setPaymentStatus o .failed none) }) := by
  unfold checkoutFail1 update_order_payment_status
  rw [h]

/-- Reduction of `checkout_order` through its preconditions down to the debit
call, when every precondition passes and the debit succeeds: the endpoint
lands in the first `except` handler with the keyword `TypeError`. -/
theorem checkout_debit_ok (db : DB) (uid : String) (cur : Int) (oid : String)
    (order : OrderDoc) (u : UserDoc) (db1 : DB)
    (horder : lookupD db.orders oid = some order)
    (huid : order.user_id = uid)
    (hst : order.status = .pending)
    (hps : order.payment_status = .pending ∨ order.payment_status = .failed)
    (hbal : ¬ cur < order.total_amount)
    (hlen : (productsByIds db (order.items.map OrderItem.product_id)).length =
      order.items.length)
    (hitems : checkItems db order.items = none)
    (hpos : ¬ order.total_amount ≤ 0)
    (hub : update_balance db uid cur order.total_amount "subtract" =
      .ok (u, db1)) :
    checkout_order db uid cur oid =
      checkoutFail1 db1 oid (.typeError createTransactionKwErrMsg) := by
  rcases hps with hps | hps <;>
    simp [checkout_order, get_order_by_id, horder, huid, hst, hps, hbal,
      hlen, hitems, hpos, hub, create_transaction_kwcall]

/-- Reduction of `checkout_order` when every precondition passes but the
debit raises: the endpoint lands in the first `except` handler with the
debit's exception. -/
theorem checkout_debit_error (db : DB) (uid : String) (cur : Int)
    (oid : String) (order : OrderDoc) (e : PyErr)
    (horder : lookupD db.orders oid = some order)
    (huid : order.user_id = uid)
    (hst : order.status = .pending)
    (hps : order.payment_status = .pending ∨ order.payment_status = .failed)
    (hbal : ¬ cur < order.total_amount)
    (hlen : (productsByIds db (order.items.map OrderItem.product_id)).length =
      order.items.length)
    (hitems : checkItems db order.items = none)
    (hpos : ¬ order.total_amount ≤ 0)
    (hub : update_balance db uid cur order.total_amount "subtract" =
      .error e) :
    checkout_order db uid cur oid = checkoutFail1 db oid e := by
  rcases hps with hps | hps <;>
    simp [checkout_order, get_order_by_id, horder, huid, hst, hps, hbal,
      hlen, hitems, hpos, hub]

/-- Reduction of `checkout_order` when the balance read by the endpoint does
not cover the order total: the request is rejected before any mutation. -/
theorem checkout_pre_insufficient (db : DB) (uid : String) (cur : Int)
    (oid : String) (order : OrderDoc)
    (horder : lookupD db.orders oid = some order)
    (huid : order.user_id = uid)
    (hst : order.status = .pending)
    (hps : order.payment_status = .pending ∨ order.payment_status = .failed)
    (hbal : cur < order.total_amount) :
    checkout_order db uid cur oid =
      (.error (.http 400 "Insufficient balance"), db) := by
  rcases hps with hps | hps <;>
    simp [checkout_order, get_order_by_id, horder, huid, hst, hps, hbal]

/-- Claim C1 (spec scenario): stored balance 100.00 and balance read 100.00,
pending order `"o"` of total 40.00 over two units of an active product with
stock 5.  The claim says checkout succeeds: balance 60.00, one payment
transaction with amount 40.00 and balance 60.00, order paid and confirmed,
stock reduced.  What the code does at exactly this input: the debit commits
(balance 60.00), the `create_transaction` call then raises the
unexpected-keyword `TypeError`, the `except` handler marks the payment
failed and the request answers 500 - no transaction record exists, the order
stays `pending` with `payment_status=failed`, and the stock is unchanged. -/
theorem c1_checkout_scenario :
    (checkout_order db1 "u" 10000 "o").1 =
      .error (.http 500 ("Payment failed: " ++ createTransactionKwErrMsg)) ∧
    lookupD (checkout_order db1 "u" 10000 "o").2.users "u" = some ⟨6000⟩ ∧
    (checkout_order db1 "u" 10000 "o").2.transactions = [] ∧
    (lookupD (checkout_order db1 "u" 10000 "o").2.orders "o").map
      OrderDoc.payment_status = some .failed ∧
    (lookupD (checkout_order db1 "u" 10000 "o").2.orders "o").map
      OrderDoc.status = some .pending ∧
    (lookupD (checkout_order db1 "u" 10000 "o").2.products "p").map
      ProductDoc.stock = some 5 :=
  ⟨rfl, rfl, rfl, rfl, rfl, rfl⟩

/-- Claim C3: every `update_balance` write is conditioned on the stored
balance still equaling the supplied `current_balance` - a success implies
the stored balance equaled it at write time - and when it no longer equals
it, the call fails with the 409 concurrent-modification error directly from
the single conditional write, performing no write and no internal retry. -/
theorem c3_update_balance_cas :
    (∀ db uid cur amt op u db',
      update_balance db uid cur amt op = .ok (u, db') →
      (lookupD db.users uid).map UserDoc.balance = some cur) ∧
    (∀ db uid cur amt op,
      (op = "add" ∨ op = "subtract") → 0 < amt →
      0 ≤ newBalance cur amt op →
      (lookupD db.users uid).map UserDoc.balance ≠ some cur →
      update_balance db uid cur amt op =
        .error (.http 409 "Balance was modified by another operation")) := by
  constructor
  · intro db uid cur amt op u db' h
    obtain ⟨-, -, hlk, -, -, -⟩ := update_balance_ok db uid cur amt op u db' h
    rw [hlk]
    rfl
  · intro db uid cur amt op hop hamt hnb hne
    exact update_balance_cas_fail db uid cur amt op hop hamt hnb hne

/-- Witness for C3 at the one-user store `dbW` (stored balance 7.00): a debit
supplied with the correct current balance succeeds, one supplied with the
stale value 5.00 gets the 409. -/
theorem c3_update_balance_cas_witness :
    (update_balance dbW "u" 700 100 "subtract" = .ok (⟨600⟩, dbWsub) ∧
     (lookupD dbW.users "u").map UserDoc.balance = some 700) ∧
    ((("subtract" : String) = "add" ∨ ("subtract" : String) = "subtract") ∧
     (0 : Int) < 100 ∧ 0 ≤ newBalance 500 100 "subtract" ∧
     (lookupD dbW.users "u").map UserDoc.balance ≠ some 500) ∧
    update_balance dbW "u" 500 100 "subtract" =
      .error (.http 409 "Balance was modified by another operation") :=
  ⟨⟨by rfl,
    c3_update_balance_cas.1 dbW "u" 700 100 "subtract" ⟨600⟩ dbWsub (by rfl)⟩,
   ⟨by decide, by decide, by decide, by decide⟩,
   c3_update_balance_cas.2 dbW "u" 500 100 "subtract" (by decide) (by decide)
     (by decide) (by decide)⟩

/-- Claim C5: the spec invariant says `payment_status` reaches `paid` exactly
when a `payment` transaction referencing the order through its
`reference_id` exists, and that checkout records such a referencing
transaction.  The code never sets `reference_id`: the `TransactionCreate`
checkout builds carries `reference_id = None` for every order (the order id
only appears inside the description text), and at the scenario input the
`paid` state is not even reached - the keyword `TypeError` leaves the order
`payment_status=failed` with no transaction at all. -/
theorem c5_paid_iff_referencing_payment :
    (∀ oid total, (checkout_transaction_data oid total).reference_id = none) ∧
    (checkout_order db1 "u" 10000 "o").2.transactions = [] ∧
    (lookupD (checkout_order db1 "u" 10000 "o").2.orders "o").map
      OrderDoc.payment_status = some .failed :=
  ⟨fun _ _ => rfl, rfl, rfl⟩

/-- Claim C7: when the balance read for the authenticated user does not cover
the total of their pending order, checkout is rejected with the 400
insufficient-balance error before any mutation: the returned store is the
input store. -/
theorem c7_checkout_insufficient_balance (db : DB) (uid : String) (cur : Int)
    (oid : String) (order : OrderDoc)
    (horder : lookupD db.orders oid = some order)
    (huid : order.user_id = uid)
    (hst : order.status = .pending)
    (hps : order.payment_status = .pending)
    (hbal : cur < order.total_amount) :
    checkout_order db uid cur oid =
      (.error (.http 400 "Insufficient balance"), db) :=
  checkout_pre_insufficient db uid cur oid order horder huid hst
    (Or.inl hps) hbal

/-- Witness for C7 at the spec scenario `db7`: balance 10.00, order total
40.00. -/
theorem c7_checkout_insufficient_balance_witness :
    (lookupD db7.orders "o" = some order1 ∧
     (1000 : Int) < order1.total_amount) ∧
    checkout_order db7 "u" 1000 "o" =
      (.error (.http 400 "Insufficient balance"), db7) :=
  ⟨⟨by rfl, by decide⟩,
   c7_checkout_insufficient_balance db7 "u" 1000 "o" order1
     (by rfl) (by rfl) (by rfl) (by rfl) (by decide)⟩

/-- Claim C2: in every deposit, withdraw or checkout request whose balance
update (`update_balance`) succeeds, the following `create_transaction`
invocation fails - the endpoints pass a `current_balance` keyword its
signature does not accept - so the request answers a 500 error, the
already-committed balance change persists in the final store, and no
transaction record is inserted. -/
theorem c2_create_transaction_call_fails :
    (∀ db uid cur amt desc u db1,
      update_balance db uid cur amt "add" = .ok (u, db1) →
      deposit_money db uid cur amt desc =
        (.error (.http 500 ("Transaction failed: " ++ createTransactionKwErrMsg)),
         db1) ∧
      db1.transactions = db.transactions ∧
      lookupD db1.users uid = some ⟨cur + amt⟩) ∧
    (∀ db uid cur amt desc u db1,
      update_balance db uid cur amt "subtract" = .ok (u, db1) →
      withdraw_money db uid cur amt desc =
        (.error (.http 500 ("Transaction failed: " ++ createTransactionKwErrMsg)),
         db1) ∧
      db1.transactions = db.transactions ∧
      lookupD db1.users uid = some ⟨cur - amt⟩) ∧
    (∀ db uid cur oid order u db1,
      lookupD db.orders oid = some order →
      order.user_id = uid →
      order.status = .pending →
      (order.payment_status = .pending ∨ order.payment_status = .failed) →
      ¬ cur < order.total_amount →
      (productsByIds db (order.items.map OrderItem.product_id)).length =
        order.items.length →
      checkItems db order.items = none →
      update_balance db uid cur order.total_amount "subtract" = .ok (u, db1) →
      checkout_order db uid cur oid =
        (.error (.http 500 ("Payment failed: " ++ createTransactionKwErrMsg)),
         { db1 with
            orders := mapAt db1.orders oid
                (fun o => setPaymentStatus o .failed none) }) ∧
      db1.transactions = db.transactions ∧
      lookupD db1.users uid = some ⟨cur - order.total_amount⟩) := by
  refine ⟨?_, ?_, ?_⟩
  · intro db uid cur amt desc u db1 hub
    obtain ⟨htx, hor, hpr, hlk, hamt, hu⟩ :=
      update_balance_ok_fields db uid cur amt "add" u db1 hub
    refine ⟨?_, htx, ?_⟩
    · unfold deposit_money
      rw [if_neg (by omega : ¬amt ≤ 0), hub]
      rfl
    · rw [hlk, hu]
      rfl
  · intro db uid cur amt desc u db1 hub
    obtain ⟨htx, hor, hpr, hlk, hamt, hu⟩ :=
      update_balance_ok_fields db uid cur amt "subtract" u db1 hub
    refine ⟨?_, htx, ?_⟩
    · unfold withdraw_money
      rw [if_neg (by omega : ¬amt ≤ 0), hub]
      rfl
    · rw [hlk, hu]
      rfl
  · intro db uid cur oid order u db1 horder huid hst hps hbal hlen hitems hub
    obtain ⟨htx, hor, hpr, hlk, hamt, hu⟩ :=
      update_balance_ok_fields db uid cur order.total_amount "subtract" u db1 hub
    refine ⟨?_, htx, ?_⟩
    · rw [checkout_debit_ok db uid cur oid order u db1 horder huid hst hps hbal
        hlen hitems (by omega) hub]
      rw [checkoutFail1_eq db1 oid _ order (by rw [hor]; exact horder)]
      rfl
    · rw [hlk, hu]
      rfl

/-- Witness for C2: the deposit and withdraw parts at the one-user store
`dbW`, the checkout part at the spec scenario store `db1`. -/
theorem c2_create_transaction_call_fails_witness :
    (update_balance dbW "u" 700 100 "add" = .ok (⟨800⟩, dbWadd) ∧
     deposit_money dbW "u" 700 100 none =
       (.error (.http 500 ("Transaction failed: " ++ createTransactionKwErrMsg)),
        dbWadd) ∧
     dbWadd.transactions = dbW.transactions ∧
     lookupD dbWadd.users "u" = some ⟨800⟩) ∧
    (update_balance dbW "u" 700 100 "subtract" = .ok (⟨600⟩, dbWsub) ∧
     withdraw_money dbW "u" 700 100 none =
       (.error (.http 500 ("Transaction failed: " ++ createTransactionKwErrMsg)),
        dbWsub) ∧
     dbWsub.transactions = dbW.transactions ∧
     lookupD dbWsub.users "u" = some ⟨600⟩) ∧
    (update_balance db1 "u" 10000 4000 "subtract" = .ok (⟨6000⟩, db1sub) ∧
     checkout_order db1 "u" 10000 "o" =
       (.error (.http 500 ("Payment failed: " ++ createTransactionKwErrMsg)),
        { db1sub with
           orders := mapAt db1sub.orders "o"
               (fun o => setPaymentStatus o .failed none) }) ∧
     db1sub.transactions = db1.transactions ∧
     lookupD db1sub.users "u" = some ⟨6000⟩) :=
  ⟨⟨by rfl, c2_create_transaction_call_fails.1 dbW "u" 700 100 none ⟨800⟩ dbWadd
      (by rfl)⟩,
   ⟨by rfl, c2_create_transaction_call_fails.2.1 dbW "u" 700 100 none ⟨600⟩ dbWsub
      (by rfl)⟩,
   by rfl,
   c2_create_transaction_call_fails.2.2 db1 "u" 10000 "o" order1 ⟨6000⟩ db1sub
     (by rfl) (by rfl) (by rfl) (Or.inl (by rfl)) (by decide) (by decide)
     (by decide) (by rfl)⟩

/-- Evaluation of `newBalance` at the debit operation name. -/
theorem newBalance_subtract (cur amt : Int) :
    newBalance cur amt "subtract" = cur - amt := by
  unfold newBalance
  rw [if_neg (by decide : ¬("subtract" : String) = "add")]

/-- Claim C4: a debit through `update_balance` whose result would be negative
fails with the 400 balance-cannot-be-negative error; a withdraw/payment
through `create_transaction` whose amount exceeds the stored balance fails
with the 400 insufficient-balance error; and both operations preserve
non-negativity of every stored balance, so no operation makes a stored
balance negative (failing calls return the error before any write). -/
theorem c4_no_negative_balance :
    (∀ db uid cur amt, 0 < amt → cur - amt < 0 →
      update_balance db uid cur amt "subtract" =
        .error (.http 400 "Balance cannot be negative")) ∧
    (∀ db uid td u, lookupD db.users uid = some u →
      (td.type = .withdraw ∨ td.type = .payment) →
      u.balance < td.amount →
      create_transaction db uid td =
        .error (.http 400 "Insufficient balance")) ∧
    (∀ db uid cur amt op u db',
      update_balance db uid cur amt op = .ok (u, db') →
      (∀ k v, lookupD db.users k = some v → 0 ≤ v.balance) →
      ∀ k v, lookupD db'.users k = some v → 0 ≤ v.balance) ∧
    (∀ db uid td t db', 0 ≤ td.amount →
      create_transaction db uid td = .ok (t, db') →
      (∀ k v, lookupD db.users k = some v → 0 ≤ v.balance) →
      ∀ k v, lookupD db'.users k = some v → 0 ≤ v.balance) := by
  refine ⟨?_, ?_, ?_, ?_⟩
  · intro db uid cur amt hamt hneg
    unfold update_balance
    rw [if_neg (by decide :
        ¬¬(("subtract" : String) = "add" ∨ ("subtract" : String) = "subtract")),
      if_neg (by omega : ¬amt ≤ 0),
      if_pos (by rw [newBalance_subtract]; omega)]
  · intro db uid td u hlk hty hlt
    rcases hty with h | h <;> simp [create_transaction, hlk, h, hlt]
  · intro db uid cur amt op u db' hub hall
    obtain ⟨hop, hamt, hlk, hu, hnn, hdb⟩ :=
      update_balance_ok db uid cur amt op u db' hub
    subst hdb
    show ∀ k v, lookupD (mapAt db.users uid (fun _ => u)) k = some v →
      0 ≤ v.balance
    have hfe : (fun (_ : UserDoc) => u) =
        (fun v => { v with balance := u.balance }) := by
      funext v
      obtain ⟨b⟩ := u
      rfl
    rw [show mapAt db.users uid (fun _ => u) =
        writeBalance db.users uid u.balance by unfold writeBalance; rw [hfe]]
    exact writeBalance_nonneg db.users uid u.balance hnn hall
  · intro db uid td t db' hamt hok hall
    obtain ⟨user, nb, hlk, hnb, hus⟩ :=
      create_transaction_ok_users db uid td t db' hok
    have h0 : 0 ≤ user.balance := hall uid user hlk
    have hnb0 : 0 ≤ nb := by rcases hnb with h | ⟨h1, h2⟩ <;> omega
    intro k v hv
    rw [hus] at hv
    exact writeBalance_nonneg db.users uid nb hnb0 hall k v hv

/-- Witness for C4 at the one-user store `dbW` (stored balance 7.00): an
overdrawing debit is rejected, an overdrawing withdraw record is rejected, a
covered debit and a deposit both keep every stored balance non-negative. -/
theorem c4_no_negative_balance_witness :
    (((0 : Int) < 900 ∧ (500 : Int) - 900 < 0) ∧
     update_balance dbW "u" 500 900 "subtract" =
       .error (.http 400 "Balance cannot be negative")) ∧
    ((lookupD dbW.users "u" = some ⟨700⟩ ∧
      (⟨700⟩ : UserDoc).balance < (⟨.withdraw, 800, none, none⟩ :
        TransactionCreate).amount) ∧
     create_transaction dbW "u" ⟨.withdraw, 800, none, none⟩ =
       .error (.http 400 "Insufficient balance")) ∧
    (update_balance dbW "u" 700 100 "subtract" = .ok (⟨600⟩, dbWsub) ∧
     ∀ k v, lookupD dbWsub.users k = some v → 0 ≤ v.balance) ∧
    (create_transaction dbW "u" ⟨.deposit, 100, none, none⟩ =
       .ok (tDep, dbDep) ∧
     ∀ k v, lookupD dbDep.users k = some v → 0 ≤ v.balance) :=
  ⟨⟨⟨by decide, by decide⟩,
    c4_no_negative_balance.1 dbW "u" 500 900 (by decide) (by decide)⟩,
   ⟨⟨by rfl, by decide⟩,
    c4_no_negative_balance.2.1 dbW "u" ⟨.withdraw, 800, none, none⟩ ⟨700⟩
      (by rfl) (Or.inl rfl) (by decide)⟩,
   ⟨by rfl,
    c4_no_negative_balance.2.2.1 dbW "u" 700 100 "subtract" ⟨600⟩ dbWsub
      (by rfl) (singleton_nonneg "u" 700 (by norm_num))⟩,
   ⟨by rfl,
    c4_no_negative_balance.2.2.2 dbW "u" ⟨.deposit, 100, none, none⟩ tDep dbDep
      (by decide) (by rfl) (singleton_nonneg "u" 700 (by norm_num))⟩⟩

/-- Claim C6 counterexample: in `db6` the stored balance (50.00) differs from
the balance the endpoint read (100.00), so the debit loses the
compare-and-swap.  The claim says the order document is left exactly as it
was; the code instead sets its `payment_status` to `failed`. -/
theorem c6_counterexample :
    (lookupD db6.orders "o").map OrderDoc.payment_status = some .pending ∧
    (checkout_order db6 "u" 10000 "o").1 =
      .error (.http 500
        "Payment failed: Balance was modified by another operation") ∧
    (lookupD (checkout_order db6 "u" 10000 "o").2.orders "o").map
      OrderDoc.payment_status = some .failed ∧
    (checkout_order db6 "u" 10000 "o").2 ≠ db6 :=
  ⟨rfl, rfl, rfl, by decide⟩

/-- Claim C6 amended: if the debit step fails at the balance pre-check
(insufficient balance), checkout fails with no side effect at all; if it
fails at the balance write (concurrent modification), no transaction record
is created, no stock or balance is changed and the order's `status` is
unchanged, but the order's `payment_status` is set to `failed` rather than
left as it was. -/
theorem c6_amended_debit_failure :
    (∀ db uid cur oid order,
      lookupD db.orders oid = some order →
      order.user_id = uid → order.status = .pending →
      (order.payment_status = .pending ∨ order.payment_status = .failed) →
      cur < order.total_amount →
      checkout_order db uid cur oid =
        (.error (.http 400 "Insufficient balance"), db)) ∧
    (∀ db uid cur oid order,
      lookupD db.orders oid = some order →
      order.user_id = uid → order.status = .pending →
      (order.payment_status = .pending ∨ order.payment_status = .failed) →
      ¬ cur < order.total_amount →
      (productsByIds db (order.items.map OrderItem.product_id)).length =
        order.items.length →
      checkItems db order.items = none →
      0 < order.total_amount →
      (lookupD db.users uid).map UserDoc.balance ≠ some cur →
      ∃ db2, checkout_order db uid cur oid =
          (.error (.http 500
            "Payment failed: Balance was modified by another operation"),
           db2) ∧
        db2.users = db.users ∧ db2.transactions = db.transactions ∧
        db2.products = db.products ∧
        (lookupD db2.orders oid).map OrderDoc.status = some .pending ∧
        (lookupD db2.orders oid).map OrderDoc.payment_status =
          some .failed) := by
  constructor
  · intro db uid cur oid order horder huid hst hps hbal
    exact checkout_pre_insufficient db uid cur oid order horder huid hst
      hps hbal
  · intro db uid cur oid order horder huid hst hps hbal hlen hitems hpos hne
    have hub : update_balance db uid cur order.total_amount "subtract" =
        .error (.http 409 "Balance was modified by another operation") :=
      update_balance_cas_fail db uid cur order.total_amount "subtract"
        (Or.inr rfl) hpos (by rw [newBalance_subtract]; omega) hne
    have hc := checkout_debit_error db uid cur oid order _ horder huid hst hps
      hbal hlen hitems (by omega) hub
    rw [checkoutFail1_eq db oid _ order horder] at hc
    refine ⟨{ db with
        orders := mapAt db.orders oid
            (fun o => setPaymentStatus o .failed none) },
      ?_, rfl, rfl, rfl, ?_, ?_⟩
    · exact hc
    · simp [lookupD_mapAt, horder, setPaymentStatus, hst]
    · simp [lookupD_mapAt, horder, setPaymentStatus]

/-- Witness for C6 amended: the insufficient branch at `db7`, the
concurrent-modification branch at `db6`. -/
theorem c6_amended_debit_failure_witness :
    ((lookupD db7.orders "o" = some order1 ∧
      (1000 : Int) < order1.total_amount) ∧
     checkout_order db7 "u" 1000 "o" =
       (.error (.http 400 "Insufficient balance"), db7)) ∧
    ((lookupD db6.orders "o" = some order6 ∧
      (lookupD db6.users "u").map UserDoc.balance ≠ some 10000) ∧
     ∃ db2, checkout_order db6 "u" 10000 "o" =
         (.error (.http 500
           "Payment failed: Balance was modified by another operation"),
          db2) ∧
       db2.users = db6.users ∧ db2.transactions = db6.transactions ∧
       db2.products = db6.products ∧
       (lookupD db2.orders "o").map OrderDoc.status = some .pending ∧
       (lookupD db2.orders "o").map OrderDoc.payment_status = some .failed) :=
  ⟨⟨⟨rfl, by decide⟩,
    c6_amended_debit_failure.1 db7 "u" 1000 "o" order1 rfl rfl rfl
      (Or.inl rfl) (by decide)⟩,
   ⟨⟨rfl, by decide⟩,
    c6_amended_debit_failure.2 db6 "u" 10000 "o" order6 rfl rfl rfl
      (Or.inl rfl) (by decide) (by decide) (by decide) (by decide)
      (by decide)⟩⟩

/-- Claim C8: a subtract call on a live (stored, active, not deleted) product
whose stock does not cover the quantity fails with the 400
insufficient-stock error (so writes nothing, the error being raised before
the update), and a successful subtract leaves the stored stock equal to the
returned product's stock, which is never negative. -/
theorem c8_stock_decrement_guard :
    (∀ db pid q p, lookupD db.products pid = some p →
      p.status = .active → p.deleted = false → 0 ≤ p.stock → p.stock < q →
      update_stock db pid q "subtract" =
        .error (.http 400 "Insufficient stock")) ∧
    (∀ db pid q p' db',
      update_stock db pid q "subtract" = .ok (p', db') →
      0 ≤ p'.stock ∧ lookupD db'.products pid = some p') := by
  constructor
  · intro db pid q p hlk hact hdel h0 hlt
    unfold update_stock
    rw [if_neg (by decide :
        ¬¬(("subtract" : String) = "add" ∨ ("subtract" : String) = "subtract")),
      if_neg (by omega : ¬q < 0), if_pos rfl]
    simp [get_product_by_id, hlk, hact, hdel, hlt]
  · intro db pid q p' db' h
    exact update_stock_subtract_ok db pid q p' db' h

/-- Witness for C8 at `dbS` (active product of stock 3): subtracting 10 is
rejected with the insufficient-stock error, subtracting 2 leaves stored
stock 1. -/
theorem c8_stock_decrement_guard_witness :
    ((lookupD dbS.products "q" = some ⟨3, .active, false⟩ ∧
      (3 : Int) < 10) ∧
     update_stock dbS "q" 10 "subtract" =
       .error (.http 400 "Insufficient stock")) ∧
    (update_stock dbS "q" 2 "subtract" = .ok (⟨1, .active, false⟩, dbS2) ∧
     (0 : Int) ≤ ((⟨1, .active, false⟩ : ProductDoc)).stock ∧
     lookupD dbS2.products "q" = some ⟨1, .active, false⟩) :=
  ⟨⟨⟨rfl, by decide⟩,
    c8_stock_decrement_guard.1 dbS "q" 10 ⟨3, .active, false⟩ rfl rfl rfl
      (by decide) (by decide)⟩,
   by rfl,
   c8_stock_decrement_guard.2 dbS "q" 2 ⟨1, .active, false⟩ dbS2 (by rfl)⟩

/-- Claim C9 counterexample: `update_stock` with quantity 0 (which the claim
says is rejected in either direction) is accepted: it answers the unchanged
product and performs the vacuous `$inc` by 0. -/
theorem c9_counterexample :
    update_stock dbS "q" 0 "add" =
      .ok ({ stock := 3, status := .active, deleted := false }, dbS) := by
  rfl

/-- Claim C9 amended: a call with a negative quantity, in either direction,
is rejected with the 400 quantity-must-be-positive error before any write;
a call with quantity 0 is accepted and leaves the stock value unchanged. -/
theorem c9_amended_quantity_validation :
    (∀ db pid q op, (op = "add" ∨ op = "subtract") → q < 0 →
      update_stock db pid q op =
        .error (.http 400 "Quantity must be positive")) ∧
    (∀ db pid p, lookupD db.products pid = some p →
      ∃ p' db', update_stock db pid 0 "add" = .ok (p', db') ∧
        p'.stock = p.stock) := by
  constructor
  · intro db pid q op hop hq
    unfold update_stock
    rw [if_neg (not_not.mpr hop), if_pos hq]
  · intro db pid p hlk
    refine ⟨{ p with stock := p.stock + 0 },
      { db with
         products := mapAt db.products pid
             (fun q2 => { q2 with stock := q2.stock + 0 }) }, ?_, by simp⟩
    unfold update_stock
    rw [if_neg (by decide :
        ¬¬(("add" : String) = "add" ∨ ("add" : String) = "subtract")),
      if_neg (by decide : ¬(0 : Int) < 0),
      if_neg (by decide : ¬("add" : String) = "subtract")]
    unfold stockInc
    rw [hlk]

/-- Witness for C9 amended at `dbS`: quantity -1 is rejected, quantity 0 is
accepted with stock unchanged. -/
theorem c9_amended_quantity_validation_witness :
    ((("add" : String) = "add" ∨ ("add" : String) = "subtract") ∧
      (-1 : Int) < 0 ∧
     update_stock dbS "q" (-1) "add" =
       .error (.http 400 "Quantity must be positive")) ∧
    (lookupD dbS.products "q" = some ⟨3, .active, false⟩ ∧
     ∃ p' db', update_stock dbS "q" 0 "add" = .ok (p', db') ∧
       p'.stock = ((⟨3, .active, false⟩ : ProductDoc)).stock) :=
  ⟨⟨Or.inl rfl, by decide,
    c9_amended_quantity_validation.1 dbS "q" (-1) "add" (Or.inl rfl)
      (by decide)⟩,
   rfl,
   c9_amended_quantity_validation.2 dbS "q" ⟨3, .active, false⟩ rfl⟩

/-- Claim C10: the spec says listing a user's transactions yields the pair of
the matching records and their total count.  The route `get_transactions`
instead always answers the 500 error: it invokes
`TransactionService.get_user_transactions` with filter keywords the
signature rejects (and the service, `get_user_transactions`, returns a bare
list without any count to unpack). -/
theorem c10_get_transactions_route (db : DB) (uid : String) (page size : Nat)
    (transaction_type : Option TransactionType) :
    get_transactions db uid page size transaction_type =
      .error (.http 500 ("Error fetching transactions: " ++
        getUserTransactionsKwErrMsg)) := by
  rfl
